import Mathlib

/-!
# Verification of the capacity resolution and memory-budgeting engine

Shallow embedding of the memory-estimation and OOM-diagnostic core of
`src/max/pipelines/registry.py` (`PipelineRegistry._estimate_memory_footprint`,
`_find_valid_max_length`, `_find_valid_batch_size`, `_raise_oom_error`,
`_generate_oom_error_message`, `_calculate_kv_cache_size`,
`_infer_optimal_batch_size`).

Python integers are modelled as `Nat` (all quantities involved — byte counts,
lengths, batch sizes — are non-negative in the source; `upper = mid - 1` never
drives a bound below 0 on any reachable path, and `max(0, _)` in the source is
mirrored by truncated `Nat` subtraction).  The architecture-specific
`PipelineModel` class methods consumed by the engine are modelled as a record
of pure functions (`CapacityModel`), exactly the capability set the source
calls.  The mutable `pipeline_config` object is modelled by explicit state
passing: each search returns the final values of the fields it mutated,
together with the trace of cost-model evaluations it performed.
-/

namespace MaxRegistry

/-- The capability set of an architecture's `PipelineModel` as consumed by the
memory-budgeting engine: `estimate_kv_cache_size(config, available, devices)`,
`infer_optimal_batch_size(config, available)`, `calculate_max_seq_len(config)`
and `estimate_weights_size(config)`.  The `config` fields these read other
than `max_length` / `max_batch_size` are fixed during one resolution pass, so
the functions are modelled as pure functions of max length, max batch size
and the available cache memory.  `isKVCacheMixin` models the
`issubclass(model_cls, KVCacheMixin)` dispatch in `_calculate_kv_cache_size`. -/
structure CapacityModel where
  estimateKVCacheSize : Nat → Nat → Nat → Nat
  inferOptimalBatchSize : Nat → Nat → Nat
  calculateMaxSeqLen : Nat
  estimateWeightsSize : Nat
  isKVCacheMixin : Bool

/-- `PipelineRegistry._calculate_kv_cache_size`: returns the model's estimate
when the model mixes in `KVCacheMixin`, and 0 otherwise. -/
def calculateKVCacheSize (cm : CapacityModel)
    (maxLength maxBatchSize availableKVCacheMemory : Nat) : Nat :=
  if cm.isKVCacheMixin then
    cm.estimateKVCacheSize maxLength maxBatchSize availableKVCacheMemory
  else 0

/-- The batch size used for a trial length inside `_find_valid_max_length`:
the config's current batch size if the user pinned one, otherwise the value
re-inferred by `_infer_optimal_batch_size` at the trial length. -/
def trialBatchSize (cm : CapacityModel) (availableKVCacheMemory : Nat)
    (userProvidedMaxBatchSize : Bool) (curBatchSize mid : Nat) : Nat :=
  if userProvidedMaxBatchSize then curBatchSize
  else cm.inferOptimalBatchSize mid availableKVCacheMemory

/-- Result of `_find_valid_max_length`.  `found` / `inferredMaxLength` are the
first two returned components; `cfgMaxLength` / `cfgMaxBatchSize` are the
values the mutated `pipeline_config.max_length` / `max_batch_size` hold when
the function returns (the third returned component is `cfgMaxBatchSize`);
`evals` is the ordered trace of `(max_length, max_batch_size)` pairs at which
`_calculate_kv_cache_size` was evaluated. -/
structure MaxLengthResult where
  found : Bool
  inferredMaxLength : Nat
  cfgMaxLength : Nat
  cfgMaxBatchSize : Nat
  evals : List (Nat × Nat)
  deriving Repr, DecidableEq

/-- The `while not found_valid_max_length` loop of `_find_valid_max_length`.
Each iteration sets the trial midpoint, re-infers the batch size when it was
not user-pinned, evaluates the cache size, and then either terminates (interval
collapsed to ≤ 1 element, or inverted bounds) or halves the interval. -/
def findValidMaxLengthAux (cm : CapacityModel) (availableKVCacheMemory : Nat)
    (userProvidedMaxBatchSize : Bool) (lower upper curBatchSize : Nat)
    (evals : List (Nat × Nat)) : MaxLengthResult :=
  let mid := (lower + upper) / 2
  let bs := trialBatchSize cm availableKVCacheMemory userProvidedMaxBatchSize
    curBatchSize mid
  let kv := calculateKVCacheSize cm mid bs availableKVCacheMemory
  let evals' := evals ++ [(mid, bs)]
  if lower > upper then
    ⟨false, mid, mid, bs, evals'⟩
  else if upper - lower ≤ 1 then
    ⟨decide (kv ≤ availableKVCacheMemory), mid, mid, bs, evals'⟩
  else if kv > availableKVCacheMemory then
    findValidMaxLengthAux cm availableKVCacheMemory userProvidedMaxBatchSize
      lower (mid - 1) bs evals'
  else
    findValidMaxLengthAux cm availableKVCacheMemory userProvidedMaxBatchSize
      mid upper bs evals'
termination_by upper - lower
decreasing_by
  · omega
  · omega

/-- `_find_valid_max_length`: binary search over `[1, max_length]`.  The
`maxLength` / `maxBatchSize` arguments are the values `pipeline_config`
holds at entry (both asserted non-`None` by the source). -/
def findValidMaxLength (cm : CapacityModel) (availableKVCacheMemory : Nat)
    (userProvidedMaxBatchSize : Bool) (maxLength maxBatchSize : Nat) :
    MaxLengthResult :=
  findValidMaxLengthAux cm availableKVCacheMemory userProvidedMaxBatchSize
    1 maxLength maxBatchSize []

/-- Result of `_find_valid_batch_size`.  `inferredMaxBatchSize` is an `Int`
because the source returns `-1` when the user did not provide a batch size.
`evals` is the trace of `(max_length, max_batch_size)` pairs at which
`_calculate_kv_cache_size` was evaluated. -/
structure BatchSizeResult where
  found : Bool
  inferredMaxBatchSize : Int
  evals : List (Nat × Nat)
  deriving Repr, DecidableEq

/-- The `while not found_valid_max_batch_size` loop of `_find_valid_batch_size`.
The sequence length used at every cost evaluation is the `original_max_length`
argument, which the source wrote into `pipeline_config.max_length` before the
loop and which the loop never changes. -/
def findValidBatchSizeAux (cm : CapacityModel)
    (availableKVCacheMemory originalMaxLength : Nat) (lower upper : Nat)
    (evals : List (Nat × Nat)) : Bool × Nat × List (Nat × Nat) :=
  let mid := (lower + upper) / 2
  let kv := calculateKVCacheSize cm originalMaxLength mid availableKVCacheMemory
  let evals' := evals ++ [(originalMaxLength, mid)]
  if lower > upper then
    (false, mid, evals')
  else if upper - lower ≤ 1 then
    (decide (kv ≤ availableKVCacheMemory), mid, evals')
  else if kv > availableKVCacheMemory then
    findValidBatchSizeAux cm availableKVCacheMemory originalMaxLength
      lower (mid - 1) evals'
  else
    findValidBatchSizeAux cm availableKVCacheMemory originalMaxLength
      mid upper evals'
termination_by upper - lower
decreasing_by
  · omega
  · omega

/-- `_find_valid_batch_size`: returns `(False, -1)` immediately (with no cost
evaluation) when the user did not provide a batch size; otherwise resets the
config's max length to `original_max_length` and binary-searches the batch
size over `[1, max_batch_size]`. -/
def findValidBatchSize (cm : CapacityModel)
    (availableKVCacheMemory originalMaxLength maxBatchSize : Nat)
    (userProvidedMaxBatchSize : Bool) : BatchSizeResult :=
  if !userProvidedMaxBatchSize then
    ⟨false, -1, []⟩
  else
    let r := findValidBatchSizeAux cm availableKVCacheMemory originalMaxLength
      1 maxBatchSize []
    ⟨r.1, (r.2.1 : Int), r.2.2⟩

/-!
## The OOM diagnostic composer

`_generate_oom_error_message` writes a sequence of text chunks into a
`StringIO` buffer.  The message is modelled as the ordered list of the chunks
written after the fixed header; each constructor corresponds to one `msg.write`
call in the source, carrying the numbers interpolated into it.
-/

/-- One chunk written by `_generate_oom_error_message` or its two helpers. -/
inductive OomSuggestion where
  /-- "reducing --max-length or --max-batch-size, finding a smaller model, or
  using a device with more memory" -/
  | genericFallback
  /-- "reducing --max-length to {l} (supports batch size of {b})" -/
  | reduceMaxLengthTo (length batchSize : Nat)
  /-- "reducing --max-length or --max-batch-size" -/
  | reduceMaxLengthOrMaxBatchSize
  /-- "reducing --max-length to {l} and --max-batch-size to {b})" -/
  | reduceBothTo (length batchSize : Nat)
  /-- " or " -/
  | orSeparator
  /-- "reducing --max-batch-size to {b}" -/
  | reduceMaxBatchSizeTo (batchSize : Int)
  /-- "setting --max-length to {l} and --max-batch-size to {b})" -/
  | setBothTo (length batchSize : Nat)
  /-- "setting --max-batch-size to {b}" -/
  | setMaxBatchSizeTo (batchSize : Int)
  /-- "setting --max-length to {l} (currently defaulted to {o})" -/
  | setMaxLengthTo (length originalMaxLength : Nat)
  deriving Repr, DecidableEq

/-- Every chunk except the " or " separator is an actionable suggestion. -/
def OomSuggestion.isActionable : OomSuggestion → Bool
  | .orSeparator => false
  | _ => true

/-- `_add_user_provided_max_length_suggestions` (top row of the truth table in
the `_raise_oom_error` docstring). -/
def addUserProvidedMaxLengthSuggestions (userProvidedMaxBatchSize : Bool)
    (foundValidMaxLength foundValidMaxBatchSize : Bool)
    (inferredMaxLength : Nat) (inferredMaxBatchSize : Int)
    (inferredMaxLengthCompatibleBatchSize : Nat) : List OomSuggestion :=
  if !userProvidedMaxBatchSize then
    if foundValidMaxLength then
      [.reduceMaxLengthTo inferredMaxLength inferredMaxLengthCompatibleBatchSize]
    else
      [.reduceMaxLengthOrMaxBatchSize]
  else
    (if foundValidMaxLength then
      [.reduceBothTo inferredMaxLength inferredMaxLengthCompatibleBatchSize]
    else []) ++
    (if foundValidMaxBatchSize then
      (if foundValidMaxLength then [.orSeparator] else []) ++
        [.reduceMaxBatchSizeTo inferredMaxBatchSize]
    else [])

/-- `_add_default_max_length_suggestions` (bottom row of the truth table in
the `_raise_oom_error` docstring). -/
def addDefaultMaxLengthSuggestions (userProvidedMaxBatchSize : Bool)
    (foundValidMaxLength foundValidMaxBatchSize : Bool)
    (inferredMaxLength : Nat) (inferredMaxBatchSize : Int)
    (inferredMaxLengthCompatibleBatchSize originalMaxLength : Nat) :
    List OomSuggestion :=
  if !userProvidedMaxBatchSize then
    (if foundValidMaxLength then
      [.setBothTo inferredMaxLength inferredMaxLengthCompatibleBatchSize]
    else []) ++
    (if foundValidMaxBatchSize then
      (if foundValidMaxLength then [.orSeparator] else []) ++
        [.setMaxBatchSizeTo inferredMaxBatchSize]
    else [])
  else
    (if foundValidMaxBatchSize then
      [.reduceMaxBatchSizeTo inferredMaxBatchSize]
    else []) ++
    (if foundValidMaxLength then
      (if foundValidMaxBatchSize then [.orSeparator] else []) ++
        [.setMaxLengthTo inferredMaxLength originalMaxLength]
    else [])

/-- `_generate_oom_error_message`: the suggestion chunks written after the
fixed "Estimated model and kv cache memory use exceeds available memory"
header. -/
def generateOomErrorMessage (userProvidedMaxLength userProvidedMaxBatchSize : Bool)
    (foundValidMaxLength foundValidMaxBatchSize : Bool)
    (inferredMaxLength : Nat) (inferredMaxBatchSize : Int)
    (inferredMaxLengthCompatibleBatchSize originalMaxLength : Nat) :
    List OomSuggestion :=
  if !foundValidMaxLength && !foundValidMaxBatchSize then
    [.genericFallback]
  else if userProvidedMaxLength then
    addUserProvidedMaxLengthSuggestions userProvidedMaxBatchSize
      foundValidMaxLength foundValidMaxBatchSize inferredMaxLength
      inferredMaxBatchSize inferredMaxLengthCompatibleBatchSize
  else
    addDefaultMaxLengthSuggestions userProvidedMaxBatchSize
      foundValidMaxLength foundValidMaxBatchSize inferredMaxLength
      inferredMaxBatchSize inferredMaxLengthCompatibleBatchSize
      originalMaxLength

/-!
## The configuration resolver (`_estimate_memory_footprint` / `_raise_oom_error`)
-/

/-- The `max_length` / `max_batch_size` fields of a `PipelineConfig` at entry
to `_estimate_memory_footprint`; `none` means the user did not pin the value. -/
structure PipelineCfg where
  maxLength : Option Nat
  maxBatchSize : Option Nat
  deriving Repr, DecidableEq

/-- Python truthiness test `not x` on an optional integer: true for `None`
and for `0` (the degraded path of the source uses `if not
pipeline_config.max_batch_size`, which also fires on an explicit 0). -/
def pyFalsy : Option Nat → Bool
  | none => true
  | some v => v == 0

/-- Terminal state of one resolution pass.  `degraded` is the warned early
return when device stats are unavailable; `success` records whether the
high-water-mark warning was logged; the last two are the two fatal
`RuntimeError`s of `_raise_oom_error`, the capacity-exceeded one carrying the
two search outcomes and the composed message chunks. -/
inductive Outcome where
  | degraded
  | success (highWaterWarning : Bool)
  | weightsTooLarge
  | capacityExceeded (foundValidMaxLength foundValidMaxBatchSize : Bool)
      (message : List OomSuggestion)
  deriving Repr, DecidableEq

/-- Whether the outcome is one of the two fatal errors. -/
def Outcome.isFatal : Outcome → Bool
  | .weightsTooLarge => true
  | .capacityExceeded _ _ _ => true
  | _ => false

/-- What `_raise_oom_error` produced: the fatal outcome, whether its internal
`_find_valid_max_length` search ran (it does not when the weights alone
exceed free memory), and the cost evaluations of its `_find_valid_batch_size`
search. -/
structure OomReport where
  outcome : Outcome
  lengthSearchRan : Bool
  batchEvals : List (Nat × Nat)
  deriving Repr, DecidableEq

/-- `_raise_oom_error`.  `curLen` / `curBS` are the values
`pipeline_config.max_length` / `max_batch_size` hold at entry (the source
reads them as `original_max_length` / `original_max_batch_size`); it restores
`max_batch_size` to `curBS` after the length search, so the batch search runs
over `[1, curBS]`. -/
def raiseOomError (cm : CapacityModel)
    (userProvidedMaxLength userProvidedMaxBatchSize : Bool)
    (originalFreeMemory availableKVCacheMemory weightsSize : Nat)
    (curLen curBS : Nat) : OomReport :=
  if weightsSize > originalFreeMemory then
    ⟨.weightsTooLarge, false, []⟩
  else
    let r := findValidMaxLength cm availableKVCacheMemory
      userProvidedMaxBatchSize curLen curBS
    let b := findValidBatchSize cm availableKVCacheMemory curLen curBS
      userProvidedMaxBatchSize
    ⟨.capacityExceeded r.found b.found
      (generateOomErrorMessage userProvidedMaxLength userProvidedMaxBatchSize
        r.found b.found r.inferredMaxLength b.inferredMaxBatchSize
        r.cfgMaxBatchSize curLen),
      true, b.evals⟩

/-- Result of one `_estimate_memory_footprint` pass.  `maxLength` /
`maxBatchSize` are the config fields as resolution leaves them on the
non-fatal outcomes (on a fatal outcome the source raises and the config is
discarded; the fields then record the values at entry to `_raise_oom_error`).
`totalSize` is the logged "Total estimated" byte count (0 on the degraded
path, where it is never computed).  `autoShrinkRan` records whether the
automatic max-length remediation block ran; `lengthSearchCount` counts the
invocations of the `_find_valid_max_length` loop (remediation plus
diagnostic); `batchEvals` are the cost evaluations of `_find_valid_batch_size`;
`preSearchMaxLength` is the resolved max length before any search began (0 on
the degraded path). -/
structure ResolveResult where
  outcome : Outcome
  maxLength : Option Nat
  maxBatchSize : Option Nat
  totalSize : Nat
  autoShrinkRan : Bool
  lengthSearchCount : Nat
  batchEvals : List (Nat × Nat)
  preSearchMaxLength : Nat
  deriving Repr, DecidableEq

/-- The epilogue of `_estimate_memory_footprint`: after the (logging-only)
summary, raise an OOM error when the total exceeds free memory, otherwise
warn when it exceeds 95% of free memory.  The source compares against
`0.95 * free_memory` in binary floating point; this is modelled as the exact
rational 19/20 (at every input used below the double rounds to the same
comparison result). -/
def finishResolve (cm : CapacityModel)
    (userProvidedMaxLength userProvidedMaxBatchSize : Bool)
    (freeMemory availableKVCacheMemory weightsSize : Nat)
    (curLen curBS totalSize : Nat) (shrinkRan : Bool) (preLen : Nat) :
    ResolveResult :=
  if totalSize > freeMemory then
    let rep := raiseOomError cm userProvidedMaxLength userProvidedMaxBatchSize
      freeMemory availableKVCacheMemory weightsSize curLen curBS
    ⟨rep.outcome, some curLen, some curBS, totalSize, shrinkRan,
      (if shrinkRan then 1 else 0) + (if rep.lengthSearchRan then 1 else 0),
      rep.batchEvals, preLen⟩
  else if totalSize * 20 > freeMemory * 19 then
    ⟨.success true, some curLen, some curBS, totalSize, shrinkRan,
      (if shrinkRan then 1 else 0), [], preLen⟩
  else
    ⟨.success false, some curLen, some curBS, totalSize, shrinkRan,
      (if shrinkRan then 1 else 0), [], preLen⟩

/-- The available-cache-memory figure of `_estimate_memory_footprint`:
`int(max(0, free_memory - weights_size) * device_memory_utilization)`, with
the utilization fraction modelled as the exact rational
`utilNum / utilDen`. -/
def availableCacheMemory (cm : CapacityModel)
    (freeMemory utilNum utilDen : Nat) : Nat :=
  (freeMemory - cm.estimateWeightsSize) * utilNum / utilDen

/-- The max length after step 3 of resolution: the user-pinned value, else
the model's unconstrained ceiling. -/
def resolvedMaxLength (cm : CapacityModel) (cfg : PipelineCfg) : Nat :=
  cfg.maxLength.getD cm.calculateMaxSeqLen

/-- The batch size after step 3 of resolution: the user-pinned value, else
the value inferred by `_infer_optimal_batch_size` at the resolved max length
against the available cache memory. -/
def resolvedMaxBatchSize (cm : CapacityModel)
    (freeMemory utilNum utilDen : Nat) (cfg : PipelineCfg) : Nat :=
  cfg.maxBatchSize.getD (cm.inferOptimalBatchSize (resolvedMaxLength cm cfg)
    (availableCacheMemory cm freeMemory utilNum utilDen))

/-- The first estimated total (`weights + kv cache` at the resolved pair)
computed before any remediation. -/
def initialTotalSize (cm : CapacityModel)
    (freeMemory utilNum utilDen : Nat) (cfg : PipelineCfg) : Nat :=
  cm.estimateWeightsSize +
    calculateKVCacheSize cm (resolvedMaxLength cm cfg)
      (resolvedMaxBatchSize cm freeMemory utilNum utilDen cfg)
      (availableCacheMemory cm freeMemory utilNum utilDen)

/-- `_estimate_memory_footprint`.  `statsOk` models whether the
`d.stats["free_memory"]` query succeeded (on failure the source warns,
applies static defaults and returns); `freeMemory` is the summed device free
memory when it did. -/
def estimateMemoryFootprint (cm : CapacityModel) (statsOk : Bool)
    (freeMemory utilNum utilDen : Nat) (cfg : PipelineCfg) : ResolveResult :=
  if !statsOk then
    ⟨.degraded,
      (if pyFalsy cfg.maxLength then some cm.calculateMaxSeqLen
        else cfg.maxLength),
      (if pyFalsy cfg.maxBatchSize then some 1 else cfg.maxBatchSize),
      0, false, 0, [], 0⟩
  else
    let weightsSize := cm.estimateWeightsSize
    let available := availableCacheMemory cm freeMemory utilNum utilDen
    let userLen := cfg.maxLength.isSome
    let userBS := cfg.maxBatchSize.isSome
    let len1 := resolvedMaxLength cm cfg
    let bs1 := resolvedMaxBatchSize cm freeMemory utilNum utilDen cfg
    let total1 := initialTotalSize cm freeMemory utilNum utilDen cfg
    if total1 > freeMemory ∧ userLen = false then
      let r := findValidMaxLength cm available userBS len1 bs1
      if r.found then
        let kv2 := calculateKVCacheSize cm r.inferredMaxLength
          r.cfgMaxBatchSize available
        finishResolve cm userLen userBS freeMemory available weightsSize
          r.inferredMaxLength r.cfgMaxBatchSize (weightsSize + kv2) true len1
      else
        finishResolve cm userLen userBS freeMemory available weightsSize
          r.cfgMaxLength r.cfgMaxBatchSize total1 true len1
    else
      finishResolve cm userLen userBS freeMemory available weightsSize
        len1 bs1 total1 false len1

/-!
## Concrete capacity models used to instantiate the theorems
-/

/-- A model whose cache size equals the sequence length (ignoring batch size)
and whose inferred batch size is the constant 3. -/
def pinnedLinearModel : CapacityModel :=
  { estimateKVCacheSize := fun l _ _ => l
    inferOptimalBatchSize := fun _ _ => 3
    calculateMaxSeqLen := 8
    estimateWeightsSize := 0
    isKVCacheMixin := true }

/-- A model whose cache size `min(l,10) * min(b,100)` is monotone
non-decreasing in both sequence length and batch size, but whose inferred
batch size jumps from 100 (at lengths ≤ 4) to 1 (at lengths ≥ 5), making the
effective cost the length search drives non-monotone. -/
def nonMonotoneInferModel : CapacityModel :=
  { estimateKVCacheSize := fun l b _ => min l 10 * min b 100
    inferOptimalBatchSize := fun l _ => if l ≤ 4 then 100 else 1
    calculateMaxSeqLen := 8
    estimateWeightsSize := 0
    isKVCacheMixin := true }

/-- A model with 50-byte weights and a constant 60-byte cache estimate:
infeasible at every length and batch size once the budget is below 60. -/
def constantCostModel : CapacityModel :=
  { estimateKVCacheSize := fun _ _ _ => 60
    inferOptimalBatchSize := fun _ _ => 7
    calculateMaxSeqLen := 8
    estimateWeightsSize := 50
    isKVCacheMixin := true }

/-- A model whose weights (20 bytes) exceed the 16-byte free memory used with
it below. -/
def oversizedWeightsModel : CapacityModel :=
  { estimateKVCacheSize := fun _ _ _ => 5
    inferOptimalBatchSize := fun _ _ => 2
    calculateMaxSeqLen := 4
    estimateWeightsSize := 20
    isKVCacheMixin := true }

/-- A model without the KV-cache mixin (cache size 0) whose 19-byte weights
sit at exactly 95% of the 20-byte free memory used with it below. -/
def weightsOnlyModel : CapacityModel :=
  { estimateKVCacheSize := fun _ _ _ => 0
    inferOptimalBatchSize := fun _ _ => 1
    calculateMaxSeqLen := 5
    estimateWeightsSize := 19
    isKVCacheMixin := false }

/-- The effective cost function the length search drives: the cache size at a
trial length, taken at the companion batch size for that length (the pinned
batch size `b0` when the user provided one, the re-inferred one otherwise). -/
def effectiveCacheCost (cm : CapacityModel) (avail : Nat) (userBS : Bool)
    (b0 l : Nat) : Nat :=
  calculateKVCacheSize cm l (trialBatchSize cm avail userBS b0 l) avail

/-- Monotonicity of the effective cost function in the sequence length. -/
def effectiveCostMonotone (cm : CapacityModel) (avail : Nat) (userBS : Bool)
    (b0 : Nat) : Prop :=
  ∀ a b, a ≤ b →
    effectiveCacheCost cm avail userBS b0 a
      ≤ effectiveCacheCost cm avail userBS b0 b

/-- Monotonicity of the model's cache size in both sequence length and batch
size, at a fixed cache budget (§3 of the spec). -/
def cacheSizeMonotone (cm : CapacityModel) (avail : Nat) : Prop :=
  ∀ l l' b b', l ≤ l' → b ≤ b' →
    cm.estimateKVCacheSize l b avail ≤ cm.estimateKVCacheSize l' b' avail

/-!
## Search-level lemmas
-/

/-- Replacing the current batch size by a trial batch size computed from it
does not change later trial batch sizes: when the batch size is user-pinned
the trial value is the pinned value itself, and otherwise the trial value
ignores the current one. -/
theorem trialBatchSize_trial (cm : CapacityModel) (avail : Nat) (u : Bool)
    (c m l : Nat) :
    trialBatchSize cm avail u (trialBatchSize cm avail u c m) l
      = trialBatchSize cm avail u c l := by
  cases u <;> simp [trialBatchSize]

/-- Loop invariant of `_find_valid_max_length`: the returned config fields
equal the returned inferred length and its trial batch size, a `found=true`
result certifies that the cache size at the returned pair fits the budget,
the last cost evaluation is exactly the returned pair, and the number of cost
evaluations is bounded by the interval width plus one. -/
theorem findValidMaxLengthAux_spec (cm : CapacityModel) (avail : Nat)
    (userBS : Bool) :
    ∀ n lower upper curBS evals r,
      findValidMaxLengthAux cm avail userBS lower upper curBS evals = r →
      upper - lower ≤ n →
      r.cfgMaxLength = r.inferredMaxLength ∧
      r.cfgMaxBatchSize
        = trialBatchSize cm avail userBS curBS r.inferredMaxLength ∧
      (r.found = true →
        calculateKVCacheSize cm r.inferredMaxLength r.cfgMaxBatchSize avail
          ≤ avail) ∧
      r.evals.getLast? = some (r.inferredMaxLength, r.cfgMaxBatchSize) ∧
      r.evals.length ≤ evals.length + (upper - lower) + 1 := by
  intro n
  induction n with
  | zero =>
    intro lower upper curBS evals r hr hn
    rw [findValidMaxLengthAux.eq_def] at hr
    simp only at hr
    split_ifs at hr with h1 h2 h3
    · subst hr
      refine ⟨rfl, rfl, by simp, by simp, by simp only [List.length_append, List.length_cons, List.length_nil]; omega⟩
    · subst hr
      refine ⟨rfl, rfl, ?_, by simp, by simp only [List.length_append, List.length_cons, List.length_nil]; omega⟩
      intro h
      simpa using h
    · omega
    · omega
  | succ n ih =>
    intro lower upper curBS evals r hr hn
    rw [findValidMaxLengthAux.eq_def] at hr
    simp only at hr
    split_ifs at hr with h1 h2 h3
    · subst hr
      refine ⟨rfl, rfl, by simp, by simp, by simp only [List.length_append, List.length_cons, List.length_nil]; omega⟩
    · subst hr
      refine ⟨rfl, rfl, ?_, by simp, by simp only [List.length_append, List.length_cons, List.length_nil]; omega⟩
      intro h
      simpa using h
    · obtain ⟨i1, i2, i3, i4, i5⟩ := ih _ _ _ _ r hr (by omega)
      refine ⟨i1, ?_, i3, i4, ?_⟩
      · rw [i2, trialBatchSize_trial]
      · simp only [List.length_append, List.length_cons, List.length_nil] at i5
        omega
    · obtain ⟨i1, i2, i3, i4, i5⟩ := ih _ _ _ _ r hr (by omega)
      refine ⟨i1, ?_, i3, i4, ?_⟩
      · rw [i2, trialBatchSize_trial]
      · simp only [List.length_append, List.length_cons, List.length_nil] at i5
        omega

/-- Loop invariant of `_find_valid_batch_size`: every cost evaluation not
already in the accumulator uses the fixed `original_max_length`, and the
number of evaluations is bounded by the interval width plus one. -/
theorem findValidBatchSizeAux_spec (cm : CapacityModel)
    (avail origLen : Nat) :
    ∀ n lower upper evals r,
      findValidBatchSizeAux cm avail origLen lower upper evals = r →
      upper - lower ≤ n →
      (∀ p ∈ r.2.2, p ∈ evals ∨ p.1 = origLen) ∧
      r.2.2.length ≤ evals.length + (upper - lower) + 1 := by
  intro n
  induction n with
  | zero =>
    intro lower upper evals r hr hn
    rw [findValidBatchSizeAux.eq_def] at hr
    simp only at hr
    split_ifs at hr with h1 h2 h3
    · subst hr
      constructor
      · intro p hp
        simp only [List.mem_append, List.mem_singleton] at hp
        rcases hp with hp | hp
        · exact Or.inl hp
        · subst hp; exact Or.inr rfl
      · simp only [List.length_append, List.length_cons, List.length_nil]; omega
    · subst hr
      constructor
      · intro p hp
        simp only [List.mem_append, List.mem_singleton] at hp
        rcases hp with hp | hp
        · exact Or.inl hp
        · subst hp; exact Or.inr rfl
      · simp only [List.length_append, List.length_cons, List.length_nil]; omega
    · omega
    · omega
  | succ n ih =>
    intro lower upper evals r hr hn
    rw [findValidBatchSizeAux.eq_def] at hr
    simp only at hr
    split_ifs at hr with h1 h2 h3
    · subst hr
      constructor
      · intro p hp
        simp only [List.mem_append, List.mem_singleton] at hp
        rcases hp with hp | hp
        · exact Or.inl hp
        · subst hp; exact Or.inr rfl
      · simp only [List.length_append, List.length_cons, List.length_nil]; omega
    · subst hr
      constructor
      · intro p hp
        simp only [List.mem_append, List.mem_singleton] at hp
        rcases hp with hp | hp
        · exact Or.inl hp
        · subst hp; exact Or.inr rfl
      · simp only [List.length_append, List.length_cons, List.length_nil]; omega
    · obtain ⟨i1, i2⟩ := ih _ _ _ r hr (by omega)
      constructor
      · intro p hp
        rcases i1 p hp with hp' | hp'
        · simp only [List.mem_append, List.mem_singleton] at hp'
          rcases hp' with hp' | hp'
          · exact Or.inl hp'
          · subst hp'; exact Or.inr rfl
        · exact Or.inr hp'
      · simp only [List.length_append, List.length_cons, List.length_nil] at i2
        omega
    · obtain ⟨i1, i2⟩ := ih _ _ _ r hr (by omega)
      constructor
      · intro p hp
        rcases i1 p hp with hp' | hp'
        · simp only [List.mem_append, List.mem_singleton] at hp'
          rcases hp' with hp' | hp'
          · exact Or.inl hp'
          · subst hp'; exact Or.inr rfl
        · exact Or.inr hp'
      · simp only [List.length_append, List.length_cons, List.length_nil] at i2
        omega

/-- The trial batch size only depends on the current batch size when the user
pinned one, in which case the current value never changes. -/
theorem trialBatchSize_congr (cm : CapacityModel) (avail : Nat) (u : Bool)
    (c b0 l : Nat) (h : u = true → c = b0) :
    trialBatchSize cm avail u c l = trialBatchSize cm avail u b0 l := by
  cases u with
  | false => simp [trialBatchSize]
  | true => simp [trialBatchSize, h rfl]

/-- Near-optimality invariant of the `_find_valid_max_length` loop: when the
effective cost is monotone, `Lstar` is feasible, lies inside the current
interval, and dominates every feasible length below the current upper bound,
the loop ends in `found = true` at a length `≥ Lstar - 1`. -/
theorem findValidMaxLengthAux_optimal (cm : CapacityModel) (avail : Nat)
    (userBS : Bool) (b0 Lstar : Nat)
    (hmono : effectiveCostMonotone cm avail userBS b0)
    (hfeas : effectiveCacheCost cm avail userBS b0 Lstar ≤ avail) :
    ∀ n lower upper curBS evals,
      upper - lower ≤ n →
      lower ≤ Lstar → Lstar ≤ upper →
      (userBS = true → curBS = b0) →
      (∀ l, l ≤ upper → effectiveCacheCost cm avail userBS b0 l ≤ avail →
        l ≤ Lstar) →
      (findValidMaxLengthAux cm avail userBS lower upper curBS evals).found
        = true ∧
      Lstar ≤ (findValidMaxLengthAux cm avail userBS lower upper curBS
        evals).inferredMaxLength + 1 := by
  intro n
  induction n with
  | zero =>
    intro lower upper curBS evals hn hlo hhi hbs hmax
    have hbsEq : ∀ l, trialBatchSize cm avail userBS curBS l
        = trialBatchSize cm avail userBS b0 l :=
      fun l => trialBatchSize_congr cm avail userBS curBS b0 l hbs
    rw [findValidMaxLengthAux.eq_def]
    simp only
    have hmid : (lower + upper) / 2 = lower := by omega
    have hkv : calculateKVCacheSize cm ((lower + upper) / 2)
        (trialBatchSize cm avail userBS curBS ((lower + upper) / 2)) avail
        ≤ avail := by
      rw [hbsEq, hmid]
      exact le_trans (hmono lower Lstar hlo) hfeas
    split_ifs with h1 h2 h3
    · omega
    · exact ⟨by simpa using hkv, show Lstar ≤ (lower + upper) / 2 + 1 by omega⟩
    · omega
    · omega
  | succ n ih =>
    intro lower upper curBS evals hn hlo hhi hbs hmax
    have hbsEq : ∀ l, trialBatchSize cm avail userBS curBS l
        = trialBatchSize cm avail userBS b0 l :=
      fun l => trialBatchSize_congr cm avail userBS curBS b0 l hbs
    rw [findValidMaxLengthAux.eq_def]
    simp only
    split_ifs with h1 h2 h3
    · omega
    · have hmid : (lower + upper) / 2 = lower := by omega
      have hkv : calculateKVCacheSize cm ((lower + upper) / 2)
          (trialBatchSize cm avail userBS curBS ((lower + upper) / 2)) avail
          ≤ avail := by
        rw [hbsEq, hmid]
        exact le_trans (hmono lower Lstar hlo) hfeas
      exact ⟨by simpa using hkv, show Lstar ≤ (lower + upper) / 2 + 1 by omega⟩
    · -- cache at the midpoint exceeds the budget: Lstar is below the midpoint
      have hkv : effectiveCacheCost cm avail userBS b0 ((lower + upper) / 2)
          > avail := by
        unfold effectiveCacheCost
        rw [← hbsEq]
        exact h3
      have hstar : Lstar < (lower + upper) / 2 := by
        by_contra hcon
        push_neg at hcon
        exact absurd (le_trans (hmono _ _ hcon) hfeas) (by omega)
      refine ih lower ((lower + upper) / 2 - 1) _ _ (by omega) hlo
        (by omega) ?_ ?_
      · intro hu
        simp [trialBatchSize, hu, hbs hu]
      · intro l hl hfl
        exact hmax l (by omega) hfl
    · -- cache at the midpoint fits: the midpoint is a feasible length
      have hkv : effectiveCacheCost cm avail userBS b0 ((lower + upper) / 2)
          ≤ avail := by
        unfold effectiveCacheCost
        rw [← hbsEq]
        omega
      have hstar : (lower + upper) / 2 ≤ Lstar :=
        hmax _ (by omega) hkv
      refine ih ((lower + upper) / 2) upper _ _ (by omega) hstar hhi ?_ hmax
      intro hu
      simp [trialBatchSize, hu, hbs hu]

/-!
## Claim theorems: the two feasibility searches
-/

/-- C1: whenever `_find_valid_max_length` returns `found = true`, the cache
size the capacity model reports at the returned length — taken with the
returned companion batch size, which is the value re-inferred at that length
when the batch size was not user-pinned — fits within the available cache
memory budget. -/
theorem C1_findValidMaxLength_sound (cm : CapacityModel) (avail : Nat)
    (userBS : Bool) (L0 b0 : Nat) (hL : 1 ≤ L0)
    (hfound : (findValidMaxLength cm avail userBS L0 b0).found = true) :
    calculateKVCacheSize cm
      (findValidMaxLength cm avail userBS L0 b0).inferredMaxLength
      (findValidMaxLength cm avail userBS L0 b0).cfgMaxBatchSize avail
      ≤ avail ∧
    (userBS = false →
      (findValidMaxLength cm avail userBS L0 b0).cfgMaxBatchSize
        = cm.inferOptimalBatchSize
            (findValidMaxLength cm avail userBS L0 b0).inferredMaxLength
            avail) := by
  obtain ⟨-, h2, h3, -, -⟩ := findValidMaxLengthAux_spec cm avail userBS
    L0 1 L0 b0 [] (findValidMaxLength cm avail userBS L0 b0) rfl (by omega)
  refine ⟨h3 hfound, fun hu => ?_⟩
  rw [h2]
  simp [trialBatchSize, hu]

/-- C1 witness: on `pinnedLinearModel` with budget 5 and initial length 8 /
pinned batch size 3, the search finds length 4, whose cache size 4 fits. -/
theorem C1_findValidMaxLength_sound_witness :
    (findValidMaxLength pinnedLinearModel 5 true 8 3).found = true ∧
    calculateKVCacheSize pinnedLinearModel
      (findValidMaxLength pinnedLinearModel 5 true 8 3).inferredMaxLength
      (findValidMaxLength pinnedLinearModel 5 true 8 3).cfgMaxBatchSize 5
      ≤ 5 := by
  have hfound : (findValidMaxLength pinnedLinearModel 5 true 8 3).found
      = true := by
    simp [findValidMaxLength, findValidMaxLengthAux, calculateKVCacheSize,
      trialBatchSize, pinnedLinearModel]
  exact ⟨hfound,
    (C1_findValidMaxLength_sound pinnedLinearModel 5 true 8 3 (by omega)
      hfound).1⟩

/-- C2 counterexample: a capacity model whose cache size is monotone
non-decreasing in both sequence length and batch size, for which a feasible
length exists (the true maximum feasible length at the re-inferred batch
size being 8, the full initial range), yet the length search returns
`found = false` with length 1 < 8 - 1: monotonicity of the two-argument cache
size alone does not make the effective cost of the search monotone when the
re-inferred batch size varies with the trial length. -/
theorem C2_counterexample :
    cacheSizeMonotone nonMonotoneInferModel 10 ∧
    effectiveCacheCost nonMonotoneInferModel 10 false 1 8 ≤ 10 ∧
    (findValidMaxLength nonMonotoneInferModel 10 false 8 1).found = false ∧
    (findValidMaxLength nonMonotoneInferModel 10 false 8 1).inferredMaxLength
      = 1 := by
  refine ⟨?_, ?_, ?_, ?_⟩
  · intro l l' b b' hl hb
    simp only [nonMonotoneInferModel]
    exact Nat.mul_le_mul (min_le_min hl le_rfl) (min_le_min hb le_rfl)
  · simp [effectiveCacheCost, calculateKVCacheSize, trialBatchSize,
      nonMonotoneInferModel]
  · simp [findValidMaxLength, findValidMaxLengthAux, calculateKVCacheSize,
      trialBatchSize, nonMonotoneInferModel]
  · simp [findValidMaxLength, findValidMaxLengthAux, calculateKVCacheSize,
      trialBatchSize, nonMonotoneInferModel]

/-- C2 (amended): when the *effective* cost the search drives — the cache
size at the companion batch size for each trial length — is monotone
non-decreasing, and `Lstar` is the true maximum feasible length within the
initial range `[1, L0]`, the length search returns `found = true` with a
length `≥ Lstar - 1`. -/
theorem C2_findValidMaxLength_near_optimal (cm : CapacityModel) (avail : Nat)
    (userBS : Bool) (b0 L0 Lstar : Nat)
    (hmono : effectiveCostMonotone cm avail userBS b0)
    (h1 : 1 ≤ Lstar) (hub : Lstar ≤ L0)
    (hfeas : effectiveCacheCost cm avail userBS b0 Lstar ≤ avail)
    (hmax : ∀ l, l ≤ L0 → effectiveCacheCost cm avail userBS b0 l ≤ avail →
      l ≤ Lstar) :
    (findValidMaxLength cm avail userBS L0 b0).found = true ∧
    Lstar ≤ (findValidMaxLength cm avail userBS L0 b0).inferredMaxLength
      + 1 :=
  findValidMaxLengthAux_optimal cm avail userBS b0 Lstar hmono hfeas
    L0 1 L0 b0 [] (by omega) h1 hub (fun _ => rfl) hmax

/-- C2 witness: on `pinnedLinearModel` (effective cost = length, monotone)
with budget 5 and range `[1, 8]`, the maximum feasible length is 5 and the
search finds 4 ≥ 5 - 1. -/
theorem C2_findValidMaxLength_near_optimal_witness :
    (findValidMaxLength pinnedLinearModel 5 true 8 3).found = true ∧
    5 ≤ (findValidMaxLength pinnedLinearModel 5 true 8 3).inferredMaxLength
      + 1 :=
  C2_findValidMaxLength_near_optimal pinnedLinearModel 5 true 3 8 5
    (fun a b h => by
      simpa [effectiveCacheCost, calculateKVCacheSize, trialBatchSize,
        pinnedLinearModel] using h)
    (by omega) (by omega)
    (by simp [effectiveCacheCost, calculateKVCacheSize, trialBatchSize,
      pinnedLinearModel])
    (fun l _ h => by
      simpa [effectiveCacheCost, calculateKVCacheSize, trialBatchSize,
        pinnedLinearModel] using h)

/-- C6 (amended, search level): every cache-size evaluation performed by
`_find_valid_batch_size` uses the sequence length passed as
`original_max_length` — the value the config holds at entry to the
OOM-diagnostic path — and when the batch size was not user-pinned the search
performs no evaluation at all. -/
theorem C6_findValidBatchSize_fixed_length (cm : CapacityModel)
    (avail origLen b0 : Nat) (userBS : Bool) :
    (∀ p, p ∈ (findValidBatchSize cm avail origLen b0 userBS).evals →
      p.1 = origLen) ∧
    (userBS = false →
      (findValidBatchSize cm avail origLen b0 userBS).evals = []) := by
  constructor
  · intro p hp
    cases userBS with
    | false =>
      simp [findValidBatchSize] at hp
    | true =>
      have h := (findValidBatchSizeAux_spec cm avail origLen b0 1 b0 [] _
        rfl (by omega)).1
      have hp' : p ∈ (findValidBatchSizeAux cm avail origLen 1 b0 []).2.2 :=
        hp
      rcases h p hp' with h' | h'
      · simp at h'
      · exact h'
  · intro hu
    subst hu
    rfl

/-- C6 witness: on `constantCostModel` with budget 50, original length 1 and
pinned batch size 4, the batch search evaluates at `(1, 2)`, whose length
component is the original length. -/
theorem C6_findValidBatchSize_fixed_length_witness :
    (1, 2) ∈ (findValidBatchSize constantCostModel 50 1 4 true).evals ∧
    ((1 : Nat), (2 : Nat)).1 = 1 := by
  have hmem : (1, 2) ∈ (findValidBatchSize constantCostModel 50 1 4
      true).evals := by
    simp [findValidBatchSize, findValidBatchSizeAux, calculateKVCacheSize,
      constantCostModel]
  exact ⟨hmem,
    (C6_findValidBatchSize_fixed_length constantCostModel 50 1 4 true).1
      (1, 2) hmem⟩

/-- C8: for every capacity model — the cost function may be arbitrary and
non-monotonic — and initial bounds ≥ 1, both search loops terminate (they
are total functions of their inputs) and the number of cost-model
evaluations each performs is finite, bounded by the initial parameter value;
an unpinned batch size makes the batch search perform no evaluation. -/
theorem C8_search_termination (cm : CapacityModel) (avail : Nat)
    (userBS : Bool) (origLen L0 b0 : Nat) (hL : 1 ≤ L0) (hb : 1 ≤ b0) :
    (findValidMaxLength cm avail userBS L0 b0).evals.length ≤ L0 ∧
    (findValidBatchSize cm avail origLen b0 true).evals.length ≤ b0 ∧
    (findValidBatchSize cm avail origLen b0 false).evals.length = 0 := by
  refine ⟨?_, ?_, ?_⟩
  · have h := (findValidMaxLengthAux_spec cm avail userBS L0 1 L0 b0 []
      (findValidMaxLength cm avail userBS L0 b0) rfl (by omega)).2.2.2.2
    simp only [List.length_nil] at h
    omega
  · have h := (findValidBatchSizeAux_spec cm avail origLen b0 1 b0 [] _
      rfl (by omega)).2
    have h' : (findValidBatchSize cm avail origLen b0 true).evals.length
        = (findValidBatchSizeAux cm avail origLen 1 b0 []).2.2.length := rfl
    simp only [List.length_nil] at h
    omega
  · rfl

/-- C8 witness: on `pinnedLinearModel` with budget 5, the length search over
`[1, 8]` performs at most 8 evaluations and the batch search over `[1, 3]`
at most 3. -/
theorem C8_search_termination_witness :
    (findValidMaxLength pinnedLinearModel 5 true 8 3).evals.length ≤ 8 ∧
    (findValidBatchSize pinnedLinearModel 5 1 3 true).evals.length ≤ 3 := by
  have h := C8_search_termination pinnedLinearModel 5 true 1 8 3
    (by omega) (by omega)
  exact ⟨h.1, h.2.1⟩

/-- C10: when `_find_valid_max_length` returns, the config's `max_length`
field equals the returned inferred length — the last trial midpoint, as
certified by the final entry of the evaluation trace — even when
`found = false` (a failed search does not restore the entry value), and when
the batch size was not user-pinned the config's `max_batch_size` field equals
the companion batch size re-inferred at that last trial length. -/
theorem C10_length_search_post_state (cm : CapacityModel) (avail : Nat)
    (userBS : Bool) (L0 b0 : Nat) :
    (findValidMaxLength cm avail userBS L0 b0).cfgMaxLength
      = (findValidMaxLength cm avail userBS L0 b0).inferredMaxLength ∧
    (userBS = false →
      (findValidMaxLength cm avail userBS L0 b0).cfgMaxBatchSize
        = cm.inferOptimalBatchSize
            (findValidMaxLength cm avail userBS L0 b0).inferredMaxLength
            avail) ∧
    (findValidMaxLength cm avail userBS L0 b0).evals.getLast?
      = some ((findValidMaxLength cm avail userBS L0 b0).inferredMaxLength,
          (findValidMaxLength cm avail userBS L0 b0).cfgMaxBatchSize) := by
  obtain ⟨h1, h2, -, h4, -⟩ := findValidMaxLengthAux_spec cm avail userBS
    L0 1 L0 b0 [] (findValidMaxLength cm avail userBS L0 b0) rfl (by omega)
  refine ⟨h1, fun hu => ?_, h4⟩
  rw [h2]
  simp [trialBatchSize, hu]

/-- C10 witness: on `pinnedLinearModel` with budget 5, unpinned batch size
(range `[1, 8]`), the post-state batch size equals the batch size re-inferred
at the returned length. -/
theorem C10_length_search_post_state_witness :
    (findValidMaxLength pinnedLinearModel 5 false 8 3).cfgMaxBatchSize
      = pinnedLinearModel.inferOptimalBatchSize
          (findValidMaxLength pinnedLinearModel 5 false 8 3).inferredMaxLength
          5 :=
  (C10_length_search_post_state pinnedLinearModel 5 false 8 3).2.1 rfl

/-!
## Resolver-level lemmas
-/

/-- A found batch size implies the user pinned one: with an unpinned batch
size `_find_valid_batch_size` returns `found = False` without searching. -/
theorem findValidBatchSize_found_pinned (cm : CapacityModel)
    (avail origLen b0 : Nat) (uB : Bool)
    (h : (findValidBatchSize cm avail origLen b0 uB).found = true) :
    uB = true := by
  cases uB with
  | false => exact absurd h (by simp [findValidBatchSize])
  | true => rfl

/-- The composed OOM message is the generic fallback exactly when neither
search found a value, and — given that a found batch size implies the user
pinned one — always contains at least one actionable suggestion. -/
theorem generateOomErrorMessage_spec (uL uB fL fB : Bool) (iL : Nat)
    (iB : Int) (cB oL : Nat) (h : fB = true → uB = true) :
    ((fL = false ∧ fB = false) →
      generateOomErrorMessage uL uB fL fB iL iB cB oL
        = [.genericFallback]) ∧
    ∃ s ∈ generateOomErrorMessage uL uB fL fB iL iB cB oL,
      s.isActionable = true := by
  cases uL <;> cases uB <;> cases fL <;> cases fB <;>
    simp_all [generateOomErrorMessage, addUserProvidedMaxLengthSuggestions,
      addDefaultMaxLengthSuggestions, OomSuggestion.isActionable]

/-- `_raise_oom_error` when the weights alone exceed free memory: the
weights-too-large error, with neither internal search invoked. -/
theorem raiseOomError_weights (cm : CapacityModel) (uL uB : Bool)
    (free avail w len bs : Nat) (hw : w > free) :
    raiseOomError cm uL uB free avail w len bs
      = ⟨.weightsTooLarge, false, []⟩ := by
  unfold raiseOomError
  rw [if_pos hw]

/-- `_raise_oom_error` when the weights fit: the capacity-exceeded error
built from the two search outcomes. -/
theorem raiseOomError_capacity (cm : CapacityModel) (uL uB : Bool)
    (free avail w len bs : Nat) (hw : ¬w > free) :
    raiseOomError cm uL uB free avail w len bs
      = ⟨.capacityExceeded (findValidMaxLength cm avail uB len bs).found
          (findValidBatchSize cm avail len bs uB).found
          (generateOomErrorMessage uL uB
            (findValidMaxLength cm avail uB len bs).found
            (findValidBatchSize cm avail len bs uB).found
            (findValidMaxLength cm avail uB len bs).inferredMaxLength
            (findValidBatchSize cm avail len bs uB).inferredMaxBatchSize
            (findValidMaxLength cm avail uB len bs).cfgMaxBatchSize len),
          true, (findValidBatchSize cm avail len bs uB).evals⟩ := by
  unfold raiseOomError
  rw [if_neg hw]

/-- The resolver epilogue on a fitting total: success, with the high-water
warning exactly when the total strictly exceeds 95% of free memory. -/
theorem finishResolve_ok (cm : CapacityModel) (uL uB : Bool)
    (free avail w len bs total : Nat) (shrink : Bool) (pre : Nat)
    (ht : ¬total > free) :
    finishResolve cm uL uB free avail w len bs total shrink pre
      = ⟨.success (decide (total * 20 > free * 19)), some len, some bs,
          total, shrink, (if shrink then 1 else 0), [], pre⟩ := by
  unfold finishResolve
  rw [if_neg ht]
  split_ifs with h <;> simp [h]

/-- The resolver epilogue on an overflowing total with oversized weights:
the weights-too-large error. -/
theorem finishResolve_weights (cm : CapacityModel) (uL uB : Bool)
    (free avail w len bs total : Nat) (shrink : Bool) (pre : Nat)
    (ht : total > free) (hw : w > free) :
    finishResolve cm uL uB free avail w len bs total shrink pre
      = ⟨.weightsTooLarge, some len, some bs, total, shrink,
          (if shrink then 1 else 0), [], pre⟩ := by
  unfold finishResolve
  rw [if_pos ht]
  simp only [raiseOomError_weights cm uL uB free avail w len bs hw]
  simp

/-- The resolver epilogue on an overflowing total with fitting weights:
the capacity-exceeded error carrying both search outcomes. -/
theorem finishResolve_capacity (cm : CapacityModel) (uL uB : Bool)
    (free avail w len bs total : Nat) (shrink : Bool) (pre : Nat)
    (ht : total > free) (hw : ¬w > free) :
    finishResolve cm uL uB free avail w len bs total shrink pre
      = ⟨.capacityExceeded (findValidMaxLength cm avail uB len bs).found
          (findValidBatchSize cm avail len bs uB).found
          (generateOomErrorMessage uL uB
            (findValidMaxLength cm avail uB len bs).found
            (findValidBatchSize cm avail len bs uB).found
            (findValidMaxLength cm avail uB len bs).inferredMaxLength
            (findValidBatchSize cm avail len bs uB).inferredMaxBatchSize
            (findValidMaxLength cm avail uB len bs).cfgMaxBatchSize len),
          some len, some bs, total, shrink,
          (if shrink then 1 else 0) + 1,
          (findValidBatchSize cm avail len bs uB).evals, pre⟩ := by
  unfold finishResolve
  rw [if_pos ht]
  simp only [raiseOomError_capacity cm uL uB free avail w len bs hw]
  simp

/-- The degraded branch of `_estimate_memory_footprint`. -/
theorem estimateMemoryFootprint_stats_fail (cm : CapacityModel)
    (free uN uD : Nat) (cfg : PipelineCfg) :
    estimateMemoryFootprint cm false free uN uD cfg
      = ⟨.degraded,
          (if pyFalsy cfg.maxLength then some cm.calculateMaxSeqLen
            else cfg.maxLength),
          (if pyFalsy cfg.maxBatchSize then some 1 else cfg.maxBatchSize),
          0, false, 0, [], 0⟩ := rfl

/-- `_estimate_memory_footprint` when the auto-shrink remediation does not
fire (the initial total fits, or the max length was user-pinned). -/
theorem estimateMemoryFootprint_no_shrink (cm : CapacityModel)
    (free uN uD : Nat) (cfg : PipelineCfg)
    (h : ¬(initialTotalSize cm free uN uD cfg > free ∧
      cfg.maxLength.isSome = false)) :
    estimateMemoryFootprint cm true free uN uD cfg
      = finishResolve cm cfg.maxLength.isSome cfg.maxBatchSize.isSome free
          (availableCacheMemory cm free uN uD) cm.estimateWeightsSize
          (resolvedMaxLength cm cfg) (resolvedMaxBatchSize cm free uN uD cfg)
          (initialTotalSize cm free uN uD cfg) false
          (resolvedMaxLength cm cfg) := by
  unfold estimateMemoryFootprint
  simp only [Bool.not_true, Bool.false_eq_true, if_false]
  rw [if_neg h]

/-- `_estimate_memory_footprint` when the auto-shrink remediation fires and
its length search succeeds: the found length is adopted and the total
recomputed at the mutated config. -/
theorem estimateMemoryFootprint_shrink_found (cm : CapacityModel)
    (free uN uD : Nat) (cfg : PipelineCfg)
    (h : initialTotalSize cm free uN uD cfg > free ∧
      cfg.maxLength.isSome = false)
    (hf : (findValidMaxLength cm (availableCacheMemory cm free uN uD)
      cfg.maxBatchSize.isSome (resolvedMaxLength cm cfg)
      (resolvedMaxBatchSize cm free uN uD cfg)).found = true) :
    estimateMemoryFootprint cm true free uN uD cfg
      = finishResolve cm cfg.maxLength.isSome cfg.maxBatchSize.isSome free
          (availableCacheMemory cm free uN uD) cm.estimateWeightsSize
          (findValidMaxLength cm (availableCacheMemory cm free uN uD)
            cfg.maxBatchSize.isSome (resolvedMaxLength cm cfg)
            (resolvedMaxBatchSize cm free uN uD cfg)).inferredMaxLength
          (findValidMaxLength cm (availableCacheMemory cm free uN uD)
            cfg.maxBatchSize.isSome (resolvedMaxLength cm cfg)
            (resolvedMaxBatchSize cm free uN uD cfg)).cfgMaxBatchSize
          (cm.estimateWeightsSize + calculateKVCacheSize cm
            (findValidMaxLength cm (availableCacheMemory cm free uN uD)
              cfg.maxBatchSize.isSome (resolvedMaxLength cm cfg)
              (resolvedMaxBatchSize cm free uN uD cfg)).inferredMaxLength
            (findValidMaxLength cm (availableCacheMemory cm free uN uD)
              cfg.maxBatchSize.isSome (resolvedMaxLength cm cfg)
              (resolvedMaxBatchSize cm free uN uD cfg)).cfgMaxBatchSize
            (availableCacheMemory cm free uN uD)) true
          (resolvedMaxLength cm cfg) := by
  unfold estimateMemoryFootprint
  simp only [Bool.not_true, Bool.false_eq_true, if_false]
  rw [if_pos h, if_pos hf]

/-- `_estimate_memory_footprint` when the auto-shrink remediation fires and
its length search fails: the config keeps the mutated (last-trial) values and
the total stays the initial one. -/
theorem estimateMemoryFootprint_shrink_not_found (cm : CapacityModel)
    (free uN uD : Nat) (cfg : PipelineCfg)
    (h : initialTotalSize cm free uN uD cfg > free ∧
      cfg.maxLength.isSome = false)
    (hf : ¬(findValidMaxLength cm (availableCacheMemory cm free uN uD)
      cfg.maxBatchSize.isSome (resolvedMaxLength cm cfg)
      (resolvedMaxBatchSize cm free uN uD cfg)).found = true) :
    estimateMemoryFootprint cm true free uN uD cfg
      = finishResolve cm cfg.maxLength.isSome cfg.maxBatchSize.isSome free
          (availableCacheMemory cm free uN uD) cm.estimateWeightsSize
          (findValidMaxLength cm (availableCacheMemory cm free uN uD)
            cfg.maxBatchSize.isSome (resolvedMaxLength cm cfg)
            (resolvedMaxBatchSize cm free uN uD cfg)).cfgMaxLength
          (findValidMaxLength cm (availableCacheMemory cm free uN uD)
            cfg.maxBatchSize.isSome (resolvedMaxLength cm cfg)
            (resolvedMaxBatchSize cm free uN uD cfg)).cfgMaxBatchSize
          (initialTotalSize cm free uN uD cfg) true
          (resolvedMaxLength cm cfg) := by
  unfold estimateMemoryFootprint
  simp only [Bool.not_true, Bool.false_eq_true, if_false]
  rw [if_pos h, if_neg hf]

/-- On an overflowing total the resolver epilogue always ends in a fatal
outcome. -/
theorem finishResolve_fatal_of_gt (cm : CapacityModel) (uL uB : Bool)
    (free avail w len bs total : Nat) (shrink : Bool) (pre : Nat)
    (ht : total > free) :
    ((finishResolve cm uL uB free avail w len bs total shrink
      pre).outcome).isFatal = true := by
  by_cases hw : w > free
  · rw [finishResolve_weights cm uL uB free avail w len bs total shrink pre
      ht hw]
    rfl
  · rw [finishResolve_capacity cm uL uB free avail w len bs total shrink pre
      ht hw]
    rfl

/-- The resolver epilogue records the total it was given. -/
theorem finishResolve_totalSize (cm : CapacityModel) (uL uB : Bool)
    (free avail w len bs total : Nat) (shrink : Bool) (pre : Nat) :
    (finishResolve cm uL uB free avail w len bs total shrink pre).totalSize
      = total := by
  unfold finishResolve
  split_ifs <;> rfl

/-- The resolver epilogue records whether the auto-shrink remediation ran. -/
theorem finishResolve_autoShrinkRan (cm : CapacityModel) (uL uB : Bool)
    (free avail w len bs total : Nat) (shrink : Bool) (pre : Nat) :
    (finishResolve cm uL uB free avail w len bs total shrink
      pre).autoShrinkRan = shrink := by
  unfold finishResolve
  split_ifs <;> rfl

/-- Inversion of a capacity-exceeded epilogue: the attached flags and message
are the ones composed from the two searches, so the message is the generic
fallback exactly when neither search found a value and always carries an
actionable suggestion. -/
theorem finishResolve_capacity_inv (cm : CapacityModel) (uL uB : Bool)
    (free avail w len bs total : Nat) (shrink : Bool) (pre : Nat)
    (fL fB : Bool) (msg : List OomSuggestion)
    (h : (finishResolve cm uL uB free avail w len bs total shrink
      pre).outcome = .capacityExceeded fL fB msg) :
    ((fL = false ∧ fB = false) → msg = [.genericFallback]) ∧
    ∃ s ∈ msg, s.isActionable = true := by
  by_cases ht : total > free
  · by_cases hw : w > free
    · rw [finishResolve_weights cm uL uB free avail w len bs total shrink pre
        ht hw] at h
      exact absurd h (by simp)
    · rw [finishResolve_capacity cm uL uB free avail w len bs total shrink pre
        ht hw] at h
      simp only [Outcome.capacityExceeded.injEq] at h
      obtain ⟨h1, h2, h3⟩ := h
      subst h1
      subst h2
      subst h3
      exact generateOomErrorMessage_spec uL uB _ _ _ _ _ _
        (fun hb => findValidBatchSize_found_pinned cm avail len bs uB hb)
  · rw [finishResolve_ok cm uL uB free avail w len bs total shrink pre ht]
      at h
    exact absurd h (by simp)

/-!
## Claim theorems: the configuration resolver
-/

/-- C3 counterexample: device stats are available, the weights (20 bytes)
alone exceed free memory (16 bytes), and resolution does fail with the
weights-too-large error — but, the max length not being user-pinned, the
auto-shrink length search was invoked (once) before the fatal error, so it is
not the case that no feasibility search is ever invoked. -/
theorem C3_counterexample :
    (estimateMemoryFootprint oversizedWeightsModel true 16 1 1
      ⟨none, none⟩).outcome = .weightsTooLarge ∧
    (estimateMemoryFootprint oversizedWeightsModel true 16 1 1
      ⟨none, none⟩).lengthSearchCount = 1 := by
  constructor <;>
    simp [estimateMemoryFootprint, finishResolve, raiseOomError,
      findValidMaxLength, findValidMaxLengthAux, findValidBatchSize,
      findValidBatchSizeAux, calculateKVCacheSize, trialBatchSize,
      availableCacheMemory, resolvedMaxLength, resolvedMaxBatchSize,
      initialTotalSize, oversizedWeightsModel]

/-- C3 (amended): with device stats available and the estimated weights size
alone exceeding free memory, resolution fails fatally with the
weights-too-large error, the batch-size search is never invoked, and the
diagnostic-path searches are never invoked; the only search that can run is
the auto-shrink length search, exactly once, and only when the max length was
not user-pinned (never when it was). -/
theorem C3_weights_too_large_short_circuit (cm : CapacityModel)
    (free uN uD : Nat) (cfg : PipelineCfg)
    (hw : cm.estimateWeightsSize > free) :
    (estimateMemoryFootprint cm true free uN uD cfg).outcome
      = .weightsTooLarge ∧
    (estimateMemoryFootprint cm true free uN uD cfg).batchEvals = [] ∧
    (estimateMemoryFootprint cm true free uN uD cfg).lengthSearchCount
      = (if cfg.maxLength.isSome then 0 else 1) := by
  have htot : initialTotalSize cm free uN uD cfg > free := by
    unfold initialTotalSize
    omega
  by_cases hu : cfg.maxLength.isSome
  · rw [estimateMemoryFootprint_no_shrink cm free uN uD cfg
      (by simp [hu])]
    rw [finishResolve_weights cm cfg.maxLength.isSome cfg.maxBatchSize.isSome
      free (availableCacheMemory cm free uN uD) cm.estimateWeightsSize
      (resolvedMaxLength cm cfg) (resolvedMaxBatchSize cm free uN uD cfg)
      (initialTotalSize cm free uN uD cfg) false (resolvedMaxLength cm cfg)
      htot hw]
    simp [hu]
  · have hu' : cfg.maxLength.isSome = false := by simpa using hu
    by_cases hf : (findValidMaxLength cm (availableCacheMemory cm free uN uD)
        cfg.maxBatchSize.isSome (resolvedMaxLength cm cfg)
        (resolvedMaxBatchSize cm free uN uD cfg)).found = true
    · rw [estimateMemoryFootprint_shrink_found cm free uN uD cfg
        ⟨htot, hu'⟩ hf]
      rw [finishResolve_weights]
      · simp [hu']
      · omega
      · exact hw
    · rw [estimateMemoryFootprint_shrink_not_found cm free uN uD cfg
        ⟨htot, hu'⟩ hf]
      rw [finishResolve_weights]
      · simp [hu']
      · exact htot
      · exact hw

/-- C3 witness: `oversizedWeightsModel` with a pinned max length and free
memory 16 < weights 20 resolves to the weights-too-large error with no search
invoked at all. -/
theorem C3_weights_too_large_short_circuit_witness :
    (estimateMemoryFootprint oversizedWeightsModel true 16 1 1
      ⟨some 4, some 2⟩).outcome = .weightsTooLarge ∧
    (estimateMemoryFootprint oversizedWeightsModel true 16 1 1
      ⟨some 4, some 2⟩).lengthSearchCount = 0 := by
  have h := C3_weights_too_large_short_circuit oversizedWeightsModel 16 1 1
    ⟨some 4, some 2⟩ (by norm_num [oversizedWeightsModel])
  exact ⟨h.1, by rw [h.2.2]; rfl⟩

/-- C4: when the device-stat query fails, resolution returns the degraded
(non-fatal) outcome, with max batch size 1 and max length the model's
unconstrained ceiling when those were not user-pinned, no search invoked,
and the result independent of every cost-model capability other than the
ceiling — no memory budgeting or cache-size estimation is performed. -/
theorem C4_degraded_mode (cm : CapacityModel) (free uN uD : Nat)
    (cfg : PipelineCfg) :
    (estimateMemoryFootprint cm false free uN uD cfg).outcome = .degraded ∧
    ((estimateMemoryFootprint cm false free uN uD cfg).outcome).isFatal
      = false ∧
    (cfg.maxLength = none →
      (estimateMemoryFootprint cm false free uN uD cfg).maxLength
        = some cm.calculateMaxSeqLen) ∧
    (cfg.maxBatchSize = none →
      (estimateMemoryFootprint cm false free uN uD cfg).maxBatchSize
        = some 1) ∧
    (estimateMemoryFootprint cm false free uN uD cfg).lengthSearchCount
      = 0 ∧
    (estimateMemoryFootprint cm false free uN uD cfg).batchEvals = [] ∧
    ∀ cm2 : CapacityModel, cm2.calculateMaxSeqLen = cm.calculateMaxSeqLen →
      estimateMemoryFootprint cm2 false free uN uD cfg
        = estimateMemoryFootprint cm false free uN uD cfg := by
  rw [estimateMemoryFootprint_stats_fail]
  refine ⟨rfl, rfl, fun h => ?_, fun h => ?_, rfl, rfl, fun cm2 h2 => ?_⟩
  · simp [h, pyFalsy]
  · simp [h, pyFalsy]
  · rw [estimateMemoryFootprint_stats_fail, h2]

/-- C4 witness: with failing device stats and nothing pinned,
`constantCostModel` resolves to batch size 1 and its ceiling 8. -/
theorem C4_degraded_mode_witness :
    (estimateMemoryFootprint constantCostModel false 0 1 1
      ⟨none, none⟩).maxLength = some 8 ∧
    (estimateMemoryFootprint constantCostModel false 0 1 1
      ⟨none, none⟩).maxBatchSize = some 1 := by
  have h := C4_degraded_mode constantCostModel 0 1 1 ⟨none, none⟩
  exact ⟨h.2.2.1 rfl, h.2.2.2.1 rfl⟩

/-- C5: a user-pinned max sequence length (a positive integer, per the config
contract) is carried unchanged through every resolution that does not end in
a fatal error; the automatic shrink fires only when max length was not
user-pinned and the initial estimated total exceeds free memory; a user-pinned
batch size is likewise carried unchanged on every non-fatal outcome; and the
batch-size search is never invoked on a non-fatal outcome. -/
theorem C5_pinned_max_length_frame (cm : CapacityModel) (statsOk : Bool)
    (free uN uD : Nat) (cfg : PipelineCfg) :
    (∀ L, cfg.maxLength = some L → 1 ≤ L →
      ((estimateMemoryFootprint cm statsOk free uN uD cfg).outcome).isFatal
        = false →
      (estimateMemoryFootprint cm statsOk free uN uD cfg).maxLength
        = some L) ∧
    ((estimateMemoryFootprint cm statsOk free uN uD cfg).autoShrinkRan = true →
      cfg.maxLength = none ∧ initialTotalSize cm free uN uD cfg > free) ∧
    (∀ b, cfg.maxBatchSize = some b → 1 ≤ b →
      ((estimateMemoryFootprint cm statsOk free uN uD cfg).outcome).isFatal
        = false →
      (estimateMemoryFootprint cm statsOk free uN uD cfg).maxBatchSize
        = some b) ∧
    (((estimateMemoryFootprint cm statsOk free uN uD cfg).outcome).isFatal
        = false →
      (estimateMemoryFootprint cm statsOk free uN uD cfg).batchEvals
        = []) := by
  cases statsOk with
  | false =>
    rw [estimateMemoryFootprint_stats_fail]
    refine ⟨fun L hL h1 _ => ?_, fun h => by simp at h,
      fun b hb h1 _ => ?_, fun _ => rfl⟩
    · simp [hL, pyFalsy, Nat.pos_iff_ne_zero.mp h1]
    · simp [hb, pyFalsy, Nat.pos_iff_ne_zero.mp h1]
  | true =>
    by_cases hc : initialTotalSize cm free uN uD cfg > free ∧
        cfg.maxLength.isSome = false
    · -- auto-shrink branch
      have hnone : cfg.maxLength = none := by
        cases hx : cfg.maxLength with
        | none => rfl
        | some v => rw [hx] at hc; simp at hc
      by_cases hf : (findValidMaxLength cm
          (availableCacheMemory cm free uN uD) cfg.maxBatchSize.isSome
          (resolvedMaxLength cm cfg)
          (resolvedMaxBatchSize cm free uN uD cfg)).found = true
      · rw [estimateMemoryFootprint_shrink_found cm free uN uD cfg hc hf]
        refine ⟨?_, fun _ => ⟨hnone, hc.1⟩, fun b hb h1 hnf => ?_, ?_⟩
        case _ =>
          intro L hL h1 hnf
          rw [hL] at hnone
          exact absurd hnone (by simp)
        · have hns : ¬cm.estimateWeightsSize + calculateKVCacheSize cm
              (findValidMaxLength cm (availableCacheMemory cm free uN uD)
                cfg.maxBatchSize.isSome (resolvedMaxLength cm cfg)
                (resolvedMaxBatchSize cm free uN uD cfg)).inferredMaxLength
              (findValidMaxLength cm (availableCacheMemory cm free uN uD)
                cfg.maxBatchSize.isSome (resolvedMaxLength cm cfg)
                (resolvedMaxBatchSize cm free uN uD cfg)).cfgMaxBatchSize
              (availableCacheMemory cm free uN uD) > free := by
            intro hgt
            rw [finishResolve_fatal_of_gt cm cfg.maxLength.isSome
              cfg.maxBatchSize.isSome free (availableCacheMemory cm free uN uD)
              cm.estimateWeightsSize _ _ _ true (resolvedMaxLength cm cfg)
              hgt] at hnf
            exact absurd hnf (by simp)
          rw [finishResolve_ok _ _ _ _ _ _ _ _ _ _ _ hns]
          have hu : cfg.maxBatchSize.isSome = true := by simp [hb]
          obtain ⟨-, h2, -, -, -⟩ := findValidMaxLengthAux_spec cm
            (availableCacheMemory cm free uN uD) cfg.maxBatchSize.isSome
            (resolvedMaxLength cm cfg) 1 (resolvedMaxLength cm cfg)
            (resolvedMaxBatchSize cm free uN uD cfg) []
            (findValidMaxLength cm (availableCacheMemory cm free uN uD)
              cfg.maxBatchSize.isSome (resolvedMaxLength cm cfg)
              (resolvedMaxBatchSize cm free uN uD cfg)) rfl (by omega)
          rw [h2, hu]
          simp [trialBatchSize, resolvedMaxBatchSize, hb]
        · intro hnf
          have hns : ¬cm.estimateWeightsSize + calculateKVCacheSize cm
              (findValidMaxLength cm (availableCacheMemory cm free uN uD)
                cfg.maxBatchSize.isSome (resolvedMaxLength cm cfg)
                (resolvedMaxBatchSize cm free uN uD cfg)).inferredMaxLength
              (findValidMaxLength cm (availableCacheMemory cm free uN uD)
                cfg.maxBatchSize.isSome (resolvedMaxLength cm cfg)
                (resolvedMaxBatchSize cm free uN uD cfg)).cfgMaxBatchSize
              (availableCacheMemory cm free uN uD) > free := by
            intro hgt
            rw [finishResolve_fatal_of_gt cm cfg.maxLength.isSome
              cfg.maxBatchSize.isSome free (availableCacheMemory cm free uN uD)
              cm.estimateWeightsSize _ _ _ true (resolvedMaxLength cm cfg)
              hgt] at hnf
            exact absurd hnf (by simp)
          rw [finishResolve_ok _ _ _ _ _ _ _ _ _ _ _ hns]
      · rw [estimateMemoryFootprint_shrink_not_found cm free uN uD cfg hc hf]
        refine ⟨?_, fun _ => ⟨hnone, hc.1⟩, fun b hb h1 hnf => ?_, ?_⟩
        case _ =>
          intro L hL h1 hnf
          rw [hL] at hnone
          exact absurd hnone (by simp)
        · exact absurd hnf (by
            rw [finishResolve_fatal_of_gt cm cfg.maxLength.isSome
              cfg.maxBatchSize.isSome free (availableCacheMemory cm free uN uD)
              cm.estimateWeightsSize _ _ _ true (resolvedMaxLength cm cfg)
              hc.1]
            simp)
        · intro hnf
          exact absurd hnf (by
            rw [finishResolve_fatal_of_gt cm cfg.maxLength.isSome
              cfg.maxBatchSize.isSome free (availableCacheMemory cm free uN uD)
              cm.estimateWeightsSize _ _ _ true (resolvedMaxLength cm cfg)
              hc.1]
            simp)
    · -- no auto-shrink
      rw [estimateMemoryFootprint_no_shrink cm free uN uD cfg hc]
      have hns : ∀ hnf : ((finishResolve cm cfg.maxLength.isSome
          cfg.maxBatchSize.isSome free (availableCacheMemory cm free uN uD)
          cm.estimateWeightsSize (resolvedMaxLength cm cfg)
          (resolvedMaxBatchSize cm free uN uD cfg)
          (initialTotalSize cm free uN uD cfg) false
          (resolvedMaxLength cm cfg)).outcome).isFatal = false,
          ¬initialTotalSize cm free uN uD cfg > free := by
        intro hnf hgt
        rw [finishResolve_fatal_of_gt cm cfg.maxLength.isSome
          cfg.maxBatchSize.isSome free (availableCacheMemory cm free uN uD)
          cm.estimateWeightsSize _ _ _ false (resolvedMaxLength cm cfg)
          hgt] at hnf
        exact absurd hnf (by simp)
      refine ⟨fun L hL h1 hnf => ?_, fun h => ?_, fun b hb h1 hnf => ?_,
        fun hnf => ?_⟩
      · rw [finishResolve_ok _ _ _ _ _ _ _ _ _ _ _ (hns hnf)]
        simp [resolvedMaxLength, hL]
      · rw [finishResolve_autoShrinkRan] at h
        exact absurd h (by simp)
      · rw [finishResolve_ok _ _ _ _ _ _ _ _ _ _ _ (hns hnf)]
        simp [resolvedMaxBatchSize, hb]
      · rw [finishResolve_ok _ _ _ _ _ _ _ _ _ _ _ (hns hnf)]

/-- C5 witness: a successful resolution with pinned length 3 and pinned
batch size 2 returns exactly those values. -/
theorem C5_pinned_max_length_frame_witness :
    (estimateMemoryFootprint weightsOnlyModel true 20 1 1
      ⟨some 3, some 2⟩).maxLength = some 3 ∧
    (estimateMemoryFootprint weightsOnlyModel true 20 1 1
      ⟨some 3, some 2⟩).maxBatchSize = some 2 := by
  have hnf : ((estimateMemoryFootprint weightsOnlyModel true 20 1 1
      ⟨some 3, some 2⟩).outcome).isFatal = false := by
    simp [estimateMemoryFootprint, finishResolve, calculateKVCacheSize,
      availableCacheMemory, resolvedMaxLength, resolvedMaxBatchSize,
      initialTotalSize, weightsOnlyModel, Outcome.isFatal]
  have h := C5_pinned_max_length_frame weightsOnlyModel true 20 1 1
    ⟨some 3, some 2⟩
  exact ⟨h.1 3 rfl (by omega) hnf, h.2.2.1 2 rfl (by omega) hnf⟩

/-- C6 counterexample: the max length is not user-pinned, the batch size is
pinned to 4, and the auto-shrink length search runs and fails, leaving the
config's max length mutated to its last trial midpoint 1; the diagnostic-path
batch search then evaluates the cost model at sequence length 1, not at the
pre-search resolved max length 8. -/
theorem C6_counterexample :
    (estimateMemoryFootprint constantCostModel true 100 1 1
      ⟨none, some 4⟩).preSearchMaxLength = 8 ∧
    (1, 2) ∈ (estimateMemoryFootprint constantCostModel true 100 1 1
      ⟨none, some 4⟩).batchEvals ∧
    ∀ p ∈ (estimateMemoryFootprint constantCostModel true 100 1 1
      ⟨none, some 4⟩).batchEvals, p.1 ≠ 8 := by
  refine ⟨?_, ?_, ?_⟩ <;>
    simp [estimateMemoryFootprint, finishResolve, raiseOomError,
      findValidMaxLength, findValidMaxLengthAux, findValidBatchSize,
      findValidBatchSizeAux, calculateKVCacheSize, trialBatchSize,
      generateOomErrorMessage, addUserProvidedMaxLengthSuggestions,
      addDefaultMaxLengthSuggestions, availableCacheMemory,
      resolvedMaxLength, resolvedMaxBatchSize, initialTotalSize,
      constantCostModel]

/-- C7 counterexample: with device stats available, free memory 20 and an
estimated total of exactly 19 bytes — exactly 95% of free memory — resolution
succeeds but emits no high-water-mark warning: the source warns only on
strictly more than 95%, not on at-least 95%. -/
theorem C7_counterexample :
    (estimateMemoryFootprint weightsOnlyModel true 20 1 1
      ⟨some 3, some 2⟩).outcome = .success false ∧
    (estimateMemoryFootprint weightsOnlyModel true 20 1 1
      ⟨some 3, some 2⟩).totalSize = 19 ∧
    (estimateMemoryFootprint weightsOnlyModel true 20 1 1
      ⟨some 3, some 2⟩).totalSize * 20 ≥ 20 * 19 := by
  refine ⟨?_, ?_, ?_⟩ <;>
    simp [estimateMemoryFootprint, finishResolve, calculateKVCacheSize,
      availableCacheMemory, resolvedMaxLength, resolvedMaxBatchSize,
      initialTotalSize, weightsOnlyModel]

/-- C7 (amended): with device stats available and a final estimated total
within the free-memory budget, resolution succeeds (no fatal error) and the
high-water-mark warning is emitted exactly when the total strictly exceeds
95% of free memory (modelled as the exact rational 19/20); at or below that
threshold no warning is emitted. -/
theorem C7_high_water_mark (cm : CapacityModel) (free uN uD : Nat)
    (cfg : PipelineCfg)
    (hfit : (estimateMemoryFootprint cm true free uN uD cfg).totalSize
      ≤ free) :
    (estimateMemoryFootprint cm true free uN uD cfg).outcome
      = .success (decide ((estimateMemoryFootprint cm true free uN uD
          cfg).totalSize * 20 > free * 19)) := by
  by_cases hc : initialTotalSize cm free uN uD cfg > free ∧
      cfg.maxLength.isSome = false
  · by_cases hf : (findValidMaxLength cm (availableCacheMemory cm free uN uD)
        cfg.maxBatchSize.isSome (resolvedMaxLength cm cfg)
        (resolvedMaxBatchSize cm free uN uD cfg)).found = true
    · rw [estimateMemoryFootprint_shrink_found cm free uN uD cfg hc hf]
        at hfit ⊢
      rw [finishResolve_totalSize] at hfit ⊢
      rw [finishResolve_ok _ _ _ _ _ _ _ _ _ _ _ (by omega)]
    · rw [estimateMemoryFootprint_shrink_not_found cm free uN uD cfg hc hf]
        at hfit ⊢
      rw [finishResolve_totalSize] at hfit ⊢
      rw [finishResolve_ok _ _ _ _ _ _ _ _ _ _ _ (by omega)]
  · rw [estimateMemoryFootprint_no_shrink cm free uN uD cfg hc] at hfit ⊢
    rw [finishResolve_totalSize] at hfit ⊢
    rw [finishResolve_ok _ _ _ _ _ _ _ _ _ _ _ (by omega)]

/-- C7 witness: total 19 against 40 free (47.5%) resolves successfully with
no high-water warning. -/
theorem C7_high_water_mark_witness :
    (estimateMemoryFootprint weightsOnlyModel true 40 1 1
      ⟨some 3, some 2⟩).outcome = .success false := by
  have hfit : (estimateMemoryFootprint weightsOnlyModel true 40 1 1
      ⟨some 3, some 2⟩).totalSize ≤ 40 := by
    simp [estimateMemoryFootprint, finishResolve, calculateKVCacheSize,
      availableCacheMemory, resolvedMaxLength, resolvedMaxBatchSize,
      initialTotalSize, weightsOnlyModel]
  have h := C7_high_water_mark weightsOnlyModel 40 1 1 ⟨some 3, some 2⟩ hfit
  rw [h]
  congr 1

/-- C9: every capacity-exceeded failure carries a message that is the generic
fallback (reduce max length or batch size, find a smaller model, or use a
device with more memory) exactly when neither search found a feasible value,
and that in every case contains at least one actionable suggestion. -/
theorem C9_generic_fallback_diagnostic (cm : CapacityModel) (statsOk : Bool)
    (free uN uD : Nat) (cfg : PipelineCfg) (fL fB : Bool)
    (msg : List OomSuggestion)
    (h : (estimateMemoryFootprint cm statsOk free uN uD cfg).outcome
      = .capacityExceeded fL fB msg) :
    ((fL = false ∧ fB = false) → msg = [.genericFallback]) ∧
    ∃ s ∈ msg, s.isActionable = true := by
  cases statsOk with
  | false =>
    rw [estimateMemoryFootprint_stats_fail] at h
    exact absurd h (by simp)
  | true =>
    by_cases hc : initialTotalSize cm free uN uD cfg > free ∧
        cfg.maxLength.isSome = false
    · by_cases hf : (findValidMaxLength cm
          (availableCacheMemory cm free uN uD) cfg.maxBatchSize.isSome
          (resolvedMaxLength cm cfg)
          (resolvedMaxBatchSize cm free uN uD cfg)).found = true
      · rw [estimateMemoryFootprint_shrink_found cm free uN uD cfg hc hf]
          at h
        exact finishResolve_capacity_inv _ _ _ _ _ _ _ _ _ _ _ _ _ _ h
      · rw [estimateMemoryFootprint_shrink_not_found cm free uN uD cfg hc hf]
          at h
        exact finishResolve_capacity_inv _ _ _ _ _ _ _ _ _ _ _ _ _ _ h
    · rw [estimateMemoryFootprint_no_shrink cm free uN uD cfg hc] at h
      exact finishResolve_capacity_inv _ _ _ _ _ _ _ _ _ _ _ _ _ _ h

/-- C9 witness: a concrete capacity-exceeded failure in which neither search
found a feasible value, whose message is the generic fallback — an actionable
suggestion. -/
theorem C9_generic_fallback_diagnostic_witness :
    ∃ s ∈ [OomSuggestion.genericFallback], s.isActionable = true := by
  have h : (estimateMemoryFootprint constantCostModel true 100 1 1
      ⟨some 8, some 4⟩).outcome
      = .capacityExceeded false false [.genericFallback] := by
    simp [estimateMemoryFootprint, finishResolve, raiseOomError,
      findValidMaxLength, findValidMaxLengthAux, findValidBatchSize,
      findValidBatchSizeAux, calculateKVCacheSize, trialBatchSize,
      generateOomErrorMessage, addUserProvidedMaxLengthSuggestions,
      addDefaultMaxLengthSuggestions, availableCacheMemory,
      resolvedMaxLength, resolvedMaxBatchSize, initialTotalSize,
      constantCostModel]
  exact (C9_generic_fallback_diagnostic constantCostModel true 100 1 1
    ⟨some 8, some 4⟩ false false [.genericFallback] h).2

end MaxRegistry
